import Mathlib

/-!
Verification of the chat-with-documents application shell (src/src/app.py)
and its deployment-environment configuration helper (src/src/config.py).

The shell is a Streamlit script: all mutable state lives in a per-session
keyed store (`st.session_state`), modelled here as a structure of `Option`
fields (absence of a key is `none`).  External modules that the shell calls
(document loaders, folder scanner, vector-store manager, retrieval system,
response generator) are not part of the excerpt; they are modelled as
oracle parameters bundled in `ExtEnv`, so the theorems quantify over every
possible behaviour of those externals, while the shell's own control flow
is translated line by line from the source.
-/

/-- A process environment: an association list of variable names to values.
`os.environ` membership tests (`"X" in env`) look only at the key. -/
abbrev EnvMap := List (String × String)

/-- Membership of a key in the environment, as in Python `"K" in os.environ`. -/
def envContains (env : EnvMap) (k : String) : Bool :=
  env.any (fun p => p.1 == k)

/-- `os.environ.get(k, d)`: value of the first binding of `k`, else `d`. -/
def envGet (env : EnvMap) (k d : String) : String :=
  match env.find? (fun p => p.1 == k) with
  | some p => p.2
  | none => d

/-- Python substring test `needle in hay`. -/
def strContains (hay needle : String) : Bool :=
  (List.range (hay.toList.length + 1)).any
    (fun i => needle.toList.isPrefixOf (hay.toList.drop i))

/-- Algorithm A, `is_streamlit_cloud` from src/src/app.py (lines 36-44):
true iff any of three marker environment variables is present. -/
def app_is_streamlit_cloud (env : EnvMap) : Bool :=
  envContains env "STREAMLIT_RUNTIME" ||
  envContains env "STREAMLIT_SHARING_MODE" ||
  envContains env "STREAMLIT_SERVER_HEADLESS"

/-- Algorithm B, `is_streamlit_cloud` from src/src/config.py: headless marker,
else hostname substrings, else `STREAMLIT_HOME` value substrings. -/
def config_is_streamlit_cloud (env : EnvMap) (hostname : String) : Bool :=
  if envContains env "STREAMLIT_SERVER_HEADLESS" then
    true
  else if strContains hostname "streamlit" || strContains hostname "cloud" then
    true
  else
    let streamlit_home := envGet env "STREAMLIT_HOME" ""
    if strContains streamlit_home "share" || strContains streamlit_home "streamlit" then
      true
    else
      false

/-- Result of running a Python call that may raise instead of returning. -/
inductive PyResult (α : Type) where
  | ok (v : α)
  | nameError (name : String)
deriving DecidableEq

/-- `get_secret` from src/src/app.py (lines 47-56).  In hosted mode it reads
`st.secrets.get(key, default)` (the secret store is the `secrets` parameter).
In the local branch the source calls `load_dotenv()`, but no import in
src/src/app.py binds the name `load_dotenv` (the imports are os, time,
streamlit, and explicit from-imports that do not include it), so Python name
resolution fails and the call raises `NameError: name 'load_dotenv' is not
defined` before `os.getenv` is reached. -/
def get_secret (env : EnvMap) (secrets : EnvMap) (key : String)
    (default : Option String) : PyResult (Option String) :=
  if app_is_streamlit_cloud env then
    PyResult.ok (match secrets.find? (fun p => p.1 == key) with
      | some p => some p.2
      | none => default)
  else
    PyResult.nameError "load_dotenv"

/-- A unit of extracted text tagged with its originating file. -/
structure Chunk where
  text : String
  source : String
deriving DecidableEq

/-- One chat turn of `st.session_state.messages`:
a record with a `role` field and a `content` field. -/
structure Message where
  role : String
  content : String
deriving DecidableEq

/-- The per-session keyed store `st.session_state`.  A field holds `none`
exactly when the corresponding key is absent from the store.  The uploaded
archive is represented by its `name` attribute (the only attribute the shell
reads apart from passing the blob to extraction); the vector collection is
represented by its chunk contents; the LLM handle is opaque (a numeric id). -/
structure SessionState where
  folder_path : Option String
  uploaded_zip : Option String
  files : Option (List String)
  temp_dir : Option String
  collection : Option (List Chunk)
  llm : Option Nat
  messages : Option (List Message)
  show_popup : Option Bool
deriving DecidableEq

/-- A session state with every key absent (a fresh session). -/
def emptyState : SessionState :=
  ⟨none, none, none, none, none, none, none, none⟩

/-- Index of the last occurrence of a character in a character list,
`none` when absent (Python `str.rfind` returning -1). -/
def lastIdxOf : List Char → Char → Option Nat
  | [], _ => none
  | c :: cs, t =>
    match lastIdxOf cs t with
    | some i => some (i + 1)
    | none => if c = t then some (0 : Nat) else none

/-- The extension part of `os.path.splitext(p)` on a POSIX path: the suffix
from the last dot, provided that dot lies after the last separator and some
character of the basename before it is not a dot (so names like `.bashrc`
have no extension). -/
def splitextExt (p : String) : String :=
  let cs := p.toList
  let sepIdx : Int := match lastIdxOf cs '/' with
    | some i => (i : Int)
    | none => -1
  let dotIdx : Int := match lastIdxOf cs '.' with
    | some i => (i : Int)
    | none => -1
  if sepIdx < dotIdx then
    let fnameStart := (sepIdx + 1).toNat
    let dotN := dotIdx.toNat
    if (List.range' fnameStart (dotN - fnameStart)).any
        (fun j => cs.get? j ≠ some '.') then
      String.mk (cs.drop dotN)
    else ""
  else ""

/-- The keys of the `loaders` dictionary of src/src/app.py (line 28): the
extensions for which `loaders[extension]` does not raise `KeyError`. -/
def loaderExtensions : List String := [".txt", ".pdf", ".docx", ".odt"]

/-- Outcome of calling the matched loader function `fn(file)`:
it returns extracted text, or raises `KeyError` (caught by the shell's
`except KeyError`), or raises some other exception (not caught there). -/
inductive LoadOutcome where
  | ok (content : String)
  | keyError
  | otherError
deriving DecidableEq

/-- Behaviour of the external modules the shell calls during indexing.
Their sources are not in the excerpt, so each is an arbitrary function:
`create` is `create_collection` (with `none` meaning it raises, and
`some c` the initial contents of the created or reopened collection);
`chunk_text content file` is the chunk list for one document;
`addOk chunks coll` says whether `add_chunks(chunks, coll)` succeeds on that
call; `fileIndex` is `create_file_index_chunk(files)`; `load file` is the
outcome of the matched loader call.  Modelled from the spec: on success
`add_chunks` inserts the given chunks into the collection without losing
previously inserted ones (represented as list append), and a failing call
leaves prior insertions uncorrupted (collection unchanged), as the excerpt
does not contain vector_store's source. -/
structure ExtEnv where
  create : String → Option (List Chunk)
  chunk_text : String → String → List Chunk
  addOk : List Chunk → List Chunk → Bool
  fileIndex : List String → List Chunk
  load : String → LoadOutcome

/-- Accumulator of the indexing loop: the collection contents so far and the
notices written so far (`st.write` messages, in order). -/
structure IndexStep where
  collection : List Chunk
  notices : List String
deriving DecidableEq

/-- After `content` is bound (normally or by the `except KeyError` handler),
the tail of one loop iteration of `initialize_vector_store`:
`chunks = chunk_text(content, file); if chunks: try add_chunks except
Exception: notice`.  When `add_chunks` raises, the assignment to the local
`collection` does not happen, so the collection is unchanged. -/
def insertStep (env : ExtEnv) (content : String) (file : String)
    (acc : IndexStep) : IndexStep :=
  let chunks := env.chunk_text content file
  if chunks.isEmpty then acc
  else if env.addOk chunks acc.collection then
    { acc with collection := acc.collection ++ chunks }
  else
    { acc with notices := acc.notices ++
        ["Error processing file " ++ file ++ ". Skipping."] }

/-- One iteration of the per-file loop of `initialize_vector_store`
(src/src/app.py lines 189-208): look the extension up in `loaders`
(a miss raises `KeyError`), call the loader, with `except KeyError`
binding `content = ""` and writing a notice; any other exception from the
loader propagates, which `none` represents. -/
def processFile (env : ExtEnv) (file : String) (acc : IndexStep) :
    Option IndexStep :=
  if loaderExtensions.contains (splitextExt file) then
    match env.load file with
    | LoadOutcome.ok content => some (insertStep env content file acc)
    | LoadOutcome.keyError =>
        some (insertStep env "" file
          { acc with notices := acc.notices ++
              ["File " ++ file ++ " not supported. Skipping."] })
    | LoadOutcome.otherError => none
  else
    some (insertStep env "" file
      { acc with notices := acc.notices ++
          ["File " ++ file ++ " not supported. Skipping."] })

/-- The per-file loop over all discovered files.  Returns `(none, acc)` on
normal completion and `(some file, acc)` when an uncaught exception escaped
while processing `file` (the remaining files are then never reached). -/
def indexLoop (env : ExtEnv) : List String → IndexStep →
    Option String × IndexStep
  | [], acc => (none, acc)
  | f :: rest, acc =>
    match processFile env f acc with
    | some acc1 => indexLoop env rest acc1
    | none => (some f, acc)

/-- Outcome of `initialize_vector_store`:
`skipped` when a collection already exists in session state;
`storageFailure` when `create_collection` raised (error message, `st.stop`);
`abortedOn f` when an uncaught exception escaped while processing file `f`;
`completed st1` when the loop and the file-name-index step finished, the
collection was stored into session state, and `st.rerun()` was reached. -/
inductive IndexResult where
  | skipped (st : SessionState)
  | storageFailure (notices : List String)
  | abortedOn (file : String) (notices : List String)
  | completed (st : SessionState) (notices : List String)
deriving DecidableEq

/-- `initialize_vector_store` from src/src/app.py (lines 169-223): if no
collection is in session state, create one (stopping with an error notice on
failure), run the per-file loop, then build the file-name index chunks and
attempt to insert them, downgrading a failure there to a warning notice;
finally store the collection in session state and rerun. -/
def initialize_vector_store (env : ExtEnv) (st : SessionState)
    (folder_path : String) (files : List String) : IndexResult :=
  match st.collection with
  | some _ => IndexResult.skipped st
  | none =>
    match env.create folder_path with
    | none =>
        IndexResult.storageFailure
          ["Error setting up the document storage system."]
    | some c0 =>
      match indexLoop env files ⟨c0, []⟩ with
      | (some f, acc) => IndexResult.abortedOn f acc.notices
      | (none, acc) =>
        let fi := env.fileIndex files
        if env.addOk fi acc.collection then
          IndexResult.completed
            { st with collection := some (acc.collection ++ fi) } acc.notices
        else
          IndexResult.completed
            { st with collection := some acc.collection }
            (acc.notices ++
              ["Warning: Could not index file names. You can still search document content."])

/-- The widget event that fires during one run of `render_sidebar`: the
Load ZIP button with an uploaded archive of the given name, the Load Folder
button with the text-input contents, the Clear Chat History button, or no
button at all.  At most one widget event fires per Streamlit run, and
`st.rerun()` raises, so a branch that reruns skips the rest of the script. -/
inductive SidebarEvent where
  | loadZip (zipName : String)
  | loadFolder (text : String)
  | clearChat
  | nothing
deriving DecidableEq

/-- `render_sidebar` from src/src/app.py (lines 85-166), as a state
transformer: given whether `is_streamlit_cloud()` holds, the oracle for
`os.path.exists`, the firing widget event, and the session state, it returns
the updated state, the notices shown (`st.error` / `st.info` texts), and
whether `st.rerun()` was raised.  Load ZIP (cloud) records the archive and
deletes `collection` and `files`; Load Folder with a non-empty existing path
records the path and deletes `collection` and `files`; with a non-empty
non-existing path it shows an error and deletes `files` and `folder_path`;
with an empty path it shows a prompt; Clear Chat History empties
`messages`. -/
def render_sidebar (cloud : Bool) (pathExists : String → Bool)
    (ev : SidebarEvent) (st : SessionState) :
    SessionState × List String × Bool :=
  match ev with
  | SidebarEvent.loadZip z =>
    if cloud then
      ({ st with uploaded_zip := some z, collection := none, files := none },
        [], true)
    else (st, [], false)
  | SidebarEvent.loadFolder t =>
    if cloud then (st, [], false)
    else if t ≠ "" && pathExists t then
      ({ st with folder_path := some t, collection := none, files := none },
        [], true)
    else if t ≠ "" then
      ({ st with files := none, folder_path := none },
        ["Folder not found. Please check the path."], false)
    else
      (st, ["Please enter a folder path"], false)
  | SidebarEvent.clearChat => ({ st with messages := some [] }, [], true)
  | SidebarEvent.nothing => (st, [], false)

/-- The local-mode branch of the top-level source resolution
(src/src/app.py lines 271-281), run when `folder_path` is in session state:
rescan the folder; when the scan is empty, set `show_popup` if absent, show
the notice when `show_popup` is truthy, and `st.stop()` (third component
true); otherwise record the file list and continue. -/
def resolveSourceLocal (scan : String → List String) (fp : String)
    (st : SessionState) : SessionState × List String × Bool :=
  let files := scan fp
  if files.isEmpty then
    let st1 :=
      match st.show_popup with
      | none => { st with show_popup := some true }
      | some _ => st
    if st1.show_popup = some true then
      (st1, ["No documents found"], true)
    else
      (st1, [], true)
  else
    ({ st with files := some files }, [], false)

/-- Outcome of `handle_chat_input`: no truthy input this run; retrieval
raised (info notice then `st.stop()`); or an answer was generated and
appended.  Each constructor carries the resulting message history. -/
inductive ChatResult where
  | noInput (msgs : List Message)
  | retrievalFailed (msgs : List Message) (notices : List String)
  | answered (msgs : List Message)
deriving DecidableEq

/-- The message history a `ChatResult` leaves in session state. -/
def ChatResult.msgs : ChatResult → List Message
  | ChatResult.noInput m => m
  | ChatResult.retrievalFailed m _ => m
  | ChatResult.answered m => m

/-- `handle_chat_input` from src/src/app.py (lines 226-258).  `query c q` is
`query_documents(collection=c, query_text=q)`, `none` meaning it raised;
`gen q chunks history` is `generate_answer(llm, q, chunks, history)` composed
with `set_langchain_history` (both external), taking the history as the
application's message list — which at that point already contains the new
user turn.  A truthy input is first appended to `messages` as a user turn;
then retrieval runs, a failure showing a notice and stopping; otherwise the
answer is appended as an assistant turn. -/
def handle_chat_input (query : List Chunk → String → Option (List Chunk))
    (gen : String → List Chunk → List Message → String)
    (collection : List Chunk) (msgs : List Message)
    (user_input : Option String) : ChatResult :=
  match user_input with
  | none => ChatResult.noInput msgs
  | some q =>
    if q = "" then ChatResult.noInput msgs
    else
      let msgs1 := msgs ++ [⟨"user", q⟩]
      match query collection q with
      | none =>
          ChatResult.retrievalFailed msgs1
            ["Error searching documents. Please try again."]
      | some chunks =>
          let answer := gen q chunks msgs1
          ChatResult.answered (msgs1 ++ [⟨"assistant", answer⟩])

/-- Every turn in a history has role exactly "user" or "assistant". -/
def histOk (msgs : List Message) : Prop :=
  ∀ m ∈ msgs, m.role = "user" ∨ m.role = "assistant"

/-- A concrete external behaviour: the loader matched for `/docs/bad.pdf`
raises an exception that is not a `KeyError`, every other loader returns
"hello", chunking wraps non-empty content into one chunk, and every
insertion succeeds. -/
def C1env : ExtEnv where
  create := fun _ => some []
  chunk_text := fun content file =>
    if content = "" then [] else [⟨content, file⟩]
  addOk := fun _ _ => true
  fileIndex := fun _ => [⟨"INDEX", "INDEX"⟩]
  load := fun f =>
    if f = "/docs/bad.pdf" then LoadOutcome.otherError
    else LoadOutcome.ok "hello"

/-- A concrete external behaviour where every insertion fails, the loader
matched for `/w/b.pdf` raises an exception that is not a `KeyError`, and the
loader matched for `/w/c.docx` raises a `KeyError`. -/
def C1wenv : ExtEnv where
  create := fun _ => some []
  chunk_text := fun content file =>
    if content = "" then [] else [⟨content, file⟩]
  addOk := fun _ _ => false
  fileIndex := fun _ => []
  load := fun f =>
    if f = "/w/b.pdf" then LoadOutcome.otherError
    else if f = "/w/c.docx" then LoadOutcome.keyError
    else LoadOutcome.ok "x"

/-- A concrete external behaviour where content insertions succeed but
inserting the synthetic file-name index chunk fails. -/
def C7env : ExtEnv where
  create := fun _ => some []
  chunk_text := fun content file =>
    if content = "" then [] else [⟨content, file⟩]
  addOk := fun chunks _ => decide (chunks ≠ [⟨"INDEX", "INDEX"⟩])
  fileIndex := fun _ => [⟨"INDEX", "INDEX"⟩]
  load := fun _ => LoadOutcome.ok "hello"

/-- A string always contains a middle piece of itself. -/
theorem strContains_of_middle (pre mid suf : String) :
    strContains (pre ++ mid ++ suf) mid = true := by
  unfold strContains
  rw [List.any_eq_true]
  have h : (pre ++ mid ++ suf).toList =
      pre.toList ++ (mid.toList ++ suf.toList) := by
    show (pre.toList ++ mid.toList) ++ suf.toList = _
    rw [List.append_assoc]
  refine ⟨pre.toList.length, ?_, ?_⟩
  · rw [List.mem_range, h, List.length_append]
    omega
  · rw [h, List.drop_left, List.isPrefixOf_iff_prefix]
    exact List.prefix_append _ _

/-- Appending one well-formed turn preserves the history invariant. -/
theorem histOk_append (msgs : List Message) (m : Message)
    (h : histOk msgs) (hm : m.role = "user" ∨ m.role = "assistant") :
    histOk (msgs ++ [m]) := by
  intro x hx
  rcases List.mem_append.mp hx with hx1 | hx2
  · exact h x hx1
  · rw [List.mem_singleton.mp hx2]
    exact hm

/-- Claim C1, counterexample: two discovered files, where the loader of the
first raises an exception that is not a `KeyError` (a corrupt file, not an
unrecognized extension).  The `except KeyError` of src/src/app.py lines
195-200 does not catch it, so indexing is aborted at that file with no
notice emitted at all, and the second file is never processed — contradicting
the claim that a visible notice names the file and indexing continues. -/
theorem C1_counterexample :
    initialize_vector_store C1env emptyState "/docs"
        ["/docs/bad.pdf", "/docs/good.txt"] =
      IndexResult.abortedOn "/docs/bad.pdf" [] := by
  rfl

/-- Claim C1 as amended: during indexing, a failure of the chunk-insertion
step for one file produces a visible notice naming the file and indexing
continues with the remaining files, the failing file contributing no chunks;
a loader failure raised as a `KeyError` (in particular the
unrecognized-extension lookup) is likewise tolerated with a notice naming
the file, the file contributing no chunks (its content is bound to the empty
string, whose chunking is empty per spec section 4.4); but a loader failure
other than a `KeyError` propagates uncaught and aborts indexing at that
file. -/
theorem C1_amended_per_file_tolerance (env : ExtEnv) (f k g : String)
    (rest : List String) (acc : IndexStep) (content : String)
    (hfext : loaderExtensions.contains (splitextExt f) = true)
    (hload : env.load f = LoadOutcome.ok content)
    (hch : env.chunk_text content f ≠ [])
    (hadd : env.addOk (env.chunk_text content f) acc.collection = false)
    (hkext : loaderExtensions.contains (splitextExt k) = true)
    (hkload : env.load k = LoadOutcome.keyError)
    (hkch : env.chunk_text "" k = [])
    (hgext : loaderExtensions.contains (splitextExt g) = true)
    (hgload : env.load g = LoadOutcome.otherError) :
    indexLoop env (f :: rest) acc =
      indexLoop env rest
        { acc with notices := acc.notices ++
            ["Error processing file " ++ f ++ ". Skipping."] } ∧
    strContains ("Error processing file " ++ f ++ ". Skipping.") f = true ∧
    indexLoop env (k :: rest) acc =
      indexLoop env rest
        { acc with notices := acc.notices ++
            ["File " ++ k ++ " not supported. Skipping."] } ∧
    strContains ("File " ++ k ++ " not supported. Skipping.") k = true ∧
    indexLoop env (g :: rest) acc = (some g, acc) := by
  refine ⟨?_, ?_, ?_, ?_, ?_⟩
  · have hpf : processFile env f acc =
        some { acc with notices := acc.notices ++
            ["Error processing file " ++ f ++ ". Skipping."] } := by
      unfold processFile insertStep
      rw [hfext, hload]
      simp [hch, hadd]
    simp [indexLoop, hpf]
  · exact strContains_of_middle "Error processing file " f ". Skipping."
  · have hpk : processFile env k acc =
        some { acc with notices := acc.notices ++
            ["File " ++ k ++ " not supported. Skipping."] } := by
      unfold processFile insertStep
      rw [hkext, hkload]
      simp [hkch]
    simp [indexLoop, hpk]
  · exact strContains_of_middle "File " k " not supported. Skipping."
  · unfold indexLoop processFile
    rw [hgext, hgload]
    simp

/-- Claim C1, witness for the amended theorem: an insertion failure on
`/w/a.txt` is tolerated with a notice naming it, a loader `KeyError` on
`/w/c.docx` is tolerated with a notice naming it, while a non-KeyError
loader failure on `/w/b.pdf` aborts the loop. -/
theorem C1_witness :
    indexLoop C1wenv ["/w/a.txt"] ⟨[], []⟩ =
      indexLoop C1wenv []
        ⟨[], [] ++ ["Error processing file " ++ "/w/a.txt" ++ ". Skipping."]⟩ ∧
    strContains ("Error processing file " ++ "/w/a.txt" ++ ". Skipping.")
      "/w/a.txt" = true ∧
    indexLoop C1wenv ["/w/c.docx"] ⟨[], []⟩ =
      indexLoop C1wenv []
        ⟨[], [] ++ ["File " ++ "/w/c.docx" ++ " not supported. Skipping."]⟩ ∧
    strContains ("File " ++ "/w/c.docx" ++ " not supported. Skipping.")
      "/w/c.docx" = true ∧
    indexLoop C1wenv ["/w/b.pdf"] ⟨[], []⟩ = (some "/w/b.pdf", ⟨[], []⟩) :=
  C1_amended_per_file_tolerance C1wenv "/w/a.txt" "/w/c.docx" "/w/b.pdf" []
    ⟨[], []⟩ "x" (by decide) rfl (by decide) rfl (by decide) rfl rfl
    (by decide) rfl

/-- Claim C2 (code bug): in local (non-hosted) mode `get_secret` never
reaches the environment read — the source calls `load_dotenv()`, a name that
no import of src/src/app.py binds, so the call raises `NameError` instead of
loading the `.env` file and returning the default for an absent key, as both
the spec and the docstring of `get_secret` describe. -/
theorem C2_local_get_secret_raises (env secrets : EnvMap) (key : String)
    (default : Option String)
    (h : app_is_streamlit_cloud env = false) :
    get_secret env secrets key default = PyResult.nameError "load_dotenv" ∧
    ∀ v, get_secret env secrets key default ≠ PyResult.ok v := by
  unfold get_secret
  rw [h]
  simp

/-- Claim C2, witness: a process environment with no hosted-mode marker and
an absent key, where retrieval raises instead of returning the default. -/
theorem C2_witness :
    get_secret [] [] "OPENAI_API_KEY" (some "fallback") =
      PyResult.nameError "load_dotenv" ∧
    ∀ v, get_secret [] [] "OPENAI_API_KEY" (some "fallback") ≠
      PyResult.ok v :=
  C2_local_get_secret_raises [] [] "OPENAI_API_KEY" (some "fallback")
    (by decide)

/-- Claim C3, counterexample: a session whose recorded folder scans to zero
supported files on two consecutive render cycles shows the "No documents
found" notice on both cycles — the `show_popup` flag is set to true on the
first occurrence and never reset, so it does not make the notice one-shot. -/
theorem C3_counterexample :
    (resolveSourceLocal (fun _ => []) "/docs"
        { emptyState with folder_path := some "/docs" }).2.1 =
      ["No documents found"] ∧
    (resolveSourceLocal (fun _ => []) "/docs"
        (resolveSourceLocal (fun _ => []) "/docs"
          { emptyState with folder_path := some "/docs" }).1).2.1 =
      ["No documents found"] := by
  constructor <;> rfl

/-- Claim C3 as amended: in local mode, on every render cycle on which the
recorded folder scans to zero supported files, the "No documents found"
notice is shown and processing halts for the cycle; the `show_popup` flag is
set to true on the first occurrence and never reset (it is never `some
false` in a reachable state), so the notice recurs every such cycle rather
than being one-shot per session. -/
theorem C3_amended_notice_every_cycle (scan : String → List String)
    (fp : String) (st : SessionState)
    (hscan : scan fp = [])
    (hflag : st.show_popup = none ∨ st.show_popup = some true) :
    (resolveSourceLocal scan fp st).2.1 = ["No documents found"] ∧
    (resolveSourceLocal scan fp st).2.2 = true ∧
    (resolveSourceLocal scan fp st).1.show_popup = some true ∧
    (resolveSourceLocal scan fp st).1.folder_path = st.folder_path := by
  rcases hflag with hf | hf <;>
    simp [resolveSourceLocal, hscan, hf]

/-- Claim C3, witness: a fresh session with a recorded folder that scans
empty shows the notice, halts, and leaves the flag set. -/
theorem C3_witness :
    (resolveSourceLocal (fun _ => []) "/d"
        { emptyState with folder_path := some "/d" }).2.1 =
      ["No documents found"] ∧
    (resolveSourceLocal (fun _ => []) "/d"
        { emptyState with folder_path := some "/d" }).2.2 = true ∧
    (resolveSourceLocal (fun _ => []) "/d"
        { emptyState with folder_path := some "/d" }).1.show_popup =
      some true ∧
    (resolveSourceLocal (fun _ => []) "/d"
        { emptyState with folder_path := some "/d" }).1.folder_path =
      ({ emptyState with folder_path := some "/d" } : SessionState).folder_path :=
  C3_amended_notice_every_cycle (fun _ => []) "/d"
    { emptyState with folder_path := some "/d" } rfl (Or.inl rfl)

/-- Claim C4: on any process environment containing none of the four marker
variables and any host name containing the substring "cloud", Algorithm A
(the shell's detector) returns false while Algorithm B (the configuration
helper's detector) returns true — the two heuristics disagree. -/
theorem C4_detectors_disagree (env : EnvMap) (hostname : String)
    (h1 : envContains env "STREAMLIT_RUNTIME" = false)
    (h2 : envContains env "STREAMLIT_SHARING_MODE" = false)
    (h3 : envContains env "STREAMLIT_SERVER_HEADLESS" = false)
    (_h4 : envContains env "STREAMLIT_HOME" = false)
    (hc : strContains hostname "cloud" = true) :
    app_is_streamlit_cloud env = false ∧
    config_is_streamlit_cloud env hostname = true := by
  constructor
  · simp [app_is_streamlit_cloud, h1, h2, h3]
  · simp [config_is_streamlit_cloud, h3, hc]

/-- Claim C4, witness: the empty environment and host name "cloudhost". -/
theorem C4_witness :
    app_is_streamlit_cloud [] = false ∧
    config_is_streamlit_cloud [] "cloudhost" = true :=
  C4_detectors_disagree [] "cloudhost" (by decide) (by decide) (by decide)
    (by decide) (by decide)

/-- Claim C5: whenever the similarity-search call fails for a submitted
question, the question has already been appended to the history as a user
turn, an informational notice is shown, processing halts for the
interaction, and no assistant turn is appended — the resulting history is
exactly the old one plus the dangling user turn. -/
theorem C5_retrieval_failure_dangling_user_turn
    (query : List Chunk → String → Option (List Chunk))
    (gen : String → List Chunk → List Message → String)
    (collection : List Chunk) (msgs : List Message) (q : String)
    (hq : q ≠ "") (hfail : query collection q = none) :
    handle_chat_input query gen collection msgs (some q) =
      ChatResult.retrievalFailed (msgs ++ [⟨"user", q⟩])
        ["Error searching documents. Please try again."] := by
  simp [handle_chat_input, hq, hfail]

/-- Claim C5, witness: a failing retrieval backend and a concrete question
leave exactly one dangling user turn. -/
theorem C5_witness :
    handle_chat_input (fun _ _ => none) (fun _ _ _ => "ans") [] []
        (some "What color is the sky?") =
      ChatResult.retrievalFailed [⟨"user", "What color is the sky?"⟩]
        ["Error searching documents. Please try again."] := by
  have h := C5_retrieval_failure_dangling_user_turn (fun _ _ => none)
    (fun _ _ _ => "ans") [] [] "What color is the sky?" (by decide) rfl
  simpa using h

/-- Claim C6: committing a non-empty, existing folder path via Load Folder
(in particular one differing from the currently recorded path) records the
new path and removes the collection and files entries from session state,
then forces a rerun. -/
theorem C6_load_folder_invalidates (pathExists : String → Bool)
    (st : SessionState) (t : String)
    (hne : t ≠ "") (hex : pathExists t = true)
    (_hdiff : st.folder_path ≠ some t) :
    render_sidebar false pathExists (SidebarEvent.loadFolder t) st =
      ({ st with folder_path := some t, collection := none, files := none },
        [], true) := by
  simp [render_sidebar, hne, hex]

/-- Claim C6, witness: loading "/docs" into a fresh session. -/
theorem C6_witness :
    render_sidebar false (fun _ => true) (SidebarEvent.loadFolder "/docs")
        emptyState =
      ({ emptyState with
          folder_path := some "/docs", collection := none, files := none },
        [], true) :=
  C6_load_folder_invalidates (fun _ => true) emptyState "/docs"
    (by decide) rfl (by decide)

/-- Claim C7: when inserting the synthetic file-name index chunk fails (its
`add_chunks` call raising without corrupting prior insertions, so the local
collection value is unchanged), a visible warning is shown, indexing still
completes, and the collection holding every successfully inserted content
chunk is stored in session state. -/
theorem C7_file_index_failure_collection_stored (env : ExtEnv)
    (st : SessionState) (fp : String) (files : List String)
    (c0 : List Chunk) (acc : IndexStep)
    (hcoll : st.collection = none)
    (hcreate : env.create fp = some c0)
    (hloop : indexLoop env files ⟨c0, []⟩ = (none, acc))
    (hfail : env.addOk (env.fileIndex files) acc.collection = false) :
    initialize_vector_store env st fp files =
      IndexResult.completed { st with collection := some acc.collection }
        (acc.notices ++
          ["Warning: Could not index file names. You can still search document content."]) := by
  simp [initialize_vector_store, hcoll, hcreate, hloop, hfail]

/-- Claim C7, witness: one file indexes successfully, the file-name index
insertion fails, and the stored collection holds the content chunk. -/
theorem C7_witness :
    initialize_vector_store C7env emptyState "/d" ["/d/a.txt"] =
      IndexResult.completed
        { emptyState with collection := some [⟨"hello", "/d/a.txt"⟩] }
        ["Warning: Could not index file names. You can still search document content."] :=
  C7_file_index_failure_collection_stored C7env emptyState "/d" ["/d/a.txt"]
    [] ⟨[⟨"hello", "/d/a.txt"⟩], []⟩ rfl rfl (by decide) (by decide)

/-- Claim C8: submitting a non-empty folder path that does not exist shows
the error notice and leaves both `files` and `folder_path` absent from
session state, returning normally (the branch raises nothing and does not
rerun). -/
theorem C8_invalid_path_clears_state (pathExists : String → Bool)
    (st : SessionState) (t : String)
    (hne : t ≠ "") (hex : pathExists t = false) :
    render_sidebar false pathExists (SidebarEvent.loadFolder t) st =
      ({ st with files := none, folder_path := none },
        ["Folder not found. Please check the path."], false) := by
  simp [render_sidebar, hne, hex]

/-- Claim C8, witness: submitting the non-existent path "/missing". -/
theorem C8_witness :
    render_sidebar false (fun _ => false) (SidebarEvent.loadFolder "/missing")
        emptyState =
      ({ emptyState with files := none, folder_path := none },
        ["Folder not found. Please check the path."], false) :=
  C8_invalid_path_clears_state (fun _ => false) emptyState "/missing"
    (by decide) rfl

/-- Claim C9: committing a new source — Load Folder with a non-empty
existing path, or Load ZIP — records the source and deletes only the
`collection` and `files` entries; the `messages` history, the `llm` handle,
the `temp_dir` entry, and the `show_popup` flag are unchanged, so chat
history survives a source change. -/
theorem C9_source_change_frame (pathExists : String → Bool)
    (st : SessionState) (t z : String)
    (hne : t ≠ "") (hex : pathExists t = true) :
    ((render_sidebar false pathExists (SidebarEvent.loadFolder t) st).1.folder_path = some t ∧
     (render_sidebar false pathExists (SidebarEvent.loadFolder t) st).1.collection = none ∧
     (render_sidebar false pathExists (SidebarEvent.loadFolder t) st).1.files = none ∧
     (render_sidebar false pathExists (SidebarEvent.loadFolder t) st).1.messages = st.messages ∧
     (render_sidebar false pathExists (SidebarEvent.loadFolder t) st).1.llm = st.llm ∧
     (render_sidebar false pathExists (SidebarEvent.loadFolder t) st).1.temp_dir = st.temp_dir ∧
     (render_sidebar false pathExists (SidebarEvent.loadFolder t) st).1.show_popup = st.show_popup) ∧
    ((render_sidebar true pathExists (SidebarEvent.loadZip z) st).1.uploaded_zip = some z ∧
     (render_sidebar true pathExists (SidebarEvent.loadZip z) st).1.collection = none ∧
     (render_sidebar true pathExists (SidebarEvent.loadZip z) st).1.files = none ∧
     (render_sidebar true pathExists (SidebarEvent.loadZip z) st).1.messages = st.messages ∧
     (render_sidebar true pathExists (SidebarEvent.loadZip z) st).1.llm = st.llm ∧
     (render_sidebar true pathExists (SidebarEvent.loadZip z) st).1.temp_dir = st.temp_dir ∧
     (render_sidebar true pathExists (SidebarEvent.loadZip z) st).1.show_popup = st.show_popup) := by
  constructor <;> simp [render_sidebar, hne, hex]

/-- Claim C9, witness: loading "/docs" locally and "docs.zip" in hosted mode
from a fresh session. -/
theorem C9_witness :
    ((render_sidebar false (fun _ => true) (SidebarEvent.loadFolder "/docs") emptyState).1.folder_path = some "/docs" ∧
     (render_sidebar false (fun _ => true) (SidebarEvent.loadFolder "/docs") emptyState).1.collection = none ∧
     (render_sidebar false (fun _ => true) (SidebarEvent.loadFolder "/docs") emptyState).1.files = none ∧
     (render_sidebar false (fun _ => true) (SidebarEvent.loadFolder "/docs") emptyState).1.messages = emptyState.messages ∧
     (render_sidebar false (fun _ => true) (SidebarEvent.loadFolder "/docs") emptyState).1.llm = emptyState.llm ∧
     (render_sidebar false (fun _ => true) (SidebarEvent.loadFolder "/docs") emptyState).1.temp_dir = emptyState.temp_dir ∧
     (render_sidebar false (fun _ => true) (SidebarEvent.loadFolder "/docs") emptyState).1.show_popup = emptyState.show_popup) ∧
    ((render_sidebar true (fun _ => true) (SidebarEvent.loadZip "docs.zip") emptyState).1.uploaded_zip = some "docs.zip" ∧
     (render_sidebar true (fun _ => true) (SidebarEvent.loadZip "docs.zip") emptyState).1.collection = none ∧
     (render_sidebar true (fun _ => true) (SidebarEvent.loadZip "docs.zip") emptyState).1.files = none ∧
     (render_sidebar true (fun _ => true) (SidebarEvent.loadZip "docs.zip") emptyState).1.messages = emptyState.messages ∧
     (render_sidebar true (fun _ => true) (SidebarEvent.loadZip "docs.zip") emptyState).1.llm = emptyState.llm ∧
     (render_sidebar true (fun _ => true) (SidebarEvent.loadZip "docs.zip") emptyState).1.temp_dir = emptyState.temp_dir ∧
     (render_sidebar true (fun _ => true) (SidebarEvent.loadZip "docs.zip") emptyState).1.show_popup = emptyState.show_popup) :=
  C9_source_change_frame (fun _ => true) emptyState "/docs" "docs.zip"
    (by decide) rfl

/-- Claim C10: given a history whose every entry has role "user" or
"assistant", the history left by `handle_chat_input` (covering the appended
user turn, the appended assistant answer, and the failure paths), the empty
history used at initialization, and the history written by the Clear Chat
History action all satisfy the same invariant; contents are strings by the
type of `Message`. -/
theorem C10_history_role_invariant
    (query : List Chunk → String → Option (List Chunk))
    (gen : String → List Chunk → List Message → String)
    (collection : List Chunk) (msgs : List Message)
    (user_input : Option String)
    (cloud : Bool) (pathExists : String → Bool) (st : SessionState)
    (h : histOk msgs) :
    histOk (handle_chat_input query gen collection msgs user_input).msgs ∧
    histOk ([] : List Message) ∧
    (∀ m1, (render_sidebar cloud pathExists SidebarEvent.clearChat st).1.messages
        = some m1 → histOk m1) := by
  refine ⟨?_, ?_, ?_⟩
  · cases user_input with
    | none => exact h
    | some q =>
      by_cases hq : q = ""
      · simpa [handle_chat_input, hq, ChatResult.msgs] using h
      · cases hquery : query collection q with
        | none =>
          simp only [handle_chat_input, hq, if_false, hquery, ChatResult.msgs]
          exact histOk_append msgs ⟨"user", q⟩ h (Or.inl rfl)
        | some chunks =>
          simp only [handle_chat_input, hq, if_false, hquery, ChatResult.msgs]
          exact histOk_append _ _
            (histOk_append msgs ⟨"user", q⟩ h (Or.inl rfl)) (Or.inr rfl)
  · intro m hm
    cases hm
  · intro m1 hm1
    simp [render_sidebar] at hm1
    subst hm1
    intro m hm
    cases hm

/-- Claim C10, witness: a one-turn history through a full answered
interaction, the empty history, and the cleared history. -/
theorem C10_witness :
    histOk (handle_chat_input (fun _ _ => some []) (fun _ _ _ => "ans") []
        [⟨"user", "hi"⟩] (some "hello")).msgs ∧
    histOk ([] : List Message) ∧
    (∀ m1, (render_sidebar false (fun _ => true) SidebarEvent.clearChat
        emptyState).1.messages = some m1 → histOk m1) :=
  C10_history_role_invariant (fun _ _ => some []) (fun _ _ _ => "ans") []
    [⟨"user", "hi"⟩] (some "hello") false (fun _ => true) emptyState
    (by intro m hm; simp at hm; rw [hm]; exact Or.inl rfl)
